import Mathlib

/-!
# Verification of the xknx `Climate` device (`xknx/devices/climate.py`)

Shallow embedding of the `Climate` class: a stateful thermostat endpoint that
routes inbound bus telegrams to logical channels, fans out outbound
operation-mode commands over up to seven raw group addresses, and reports the
addresses to poll for initial state.

The `Climate` class itself is translated from the source.  Its collaborators
(the `RemoteValue` channel bindings, the `DPTHVACMode`/`DPTControllerStatus`
codecs, the `Device` notification plumbing) are external to the source file and
are modelled from the specification, as marked on each such definition.

Side effects (bus sends, update notifications, logger warnings, debug prints)
are modelled as an explicit event trace; a raised exception is modelled by the
`Except` error constructor.
-/

namespace XknxClimate

abbrev Addr := Nat

/-- The fixed enumeration of HVAC operation modes (`HVACOperationMode`). -/
inductive HVACOperationMode where
  | STANDBY
  | COMFORT
  | NIGHT
  | FROST_PROTECTION
deriving DecidableEq

/-- `list(HVACOperationMode)`: the full enumeration, in declaration order. -/
def allHVACOperationModes : List HVACOperationMode :=
  [HVACOperationMode.STANDBY, HVACOperationMode.COMFORT,
   HVACOperationMode.NIGHT, HVACOperationMode.FROST_PROTECTION]

/-- A telegram payload: `DPTArray` (a byte array) or `DPTBinary` (a boolean). -/
inductive Payload where
  | array (value : List Nat)
  | binary (value : Bool)
deriving DecidableEq

/-- One decoded bus message: target group address plus payload. -/
structure Telegram where
  group_address : Addr
  payload : Payload
deriving DecidableEq

/-- Observable side effects of a `Climate` operation, in emission order:
`notify` is one `after_update` change notification to the registered observer,
`telegramSent` is one outbound `send`, `warning` is one logger warning, and
`printed` is one debug `print` (the rendering of the printed object is
abstracted to a tag string). -/
inductive Event where
  | notify
  | telegramSent (group_address : Addr) (payload : Payload)
  | warning (msg : String)
  | printed (msg : String)
deriving DecidableEq

/-- Modelled from the spec: the operation-mode codec "converts between a closed
set of operation-mode symbols and ... a single-byte enumerated mode"
(`DPTHVACMode.to_knx`). -/
def DPTHVACMode.to_knx : HVACOperationMode → List Nat
  | HVACOperationMode.STANDBY => [2]
  | HVACOperationMode.COMFORT => [1]
  | HVACOperationMode.NIGHT => [3]
  | HVACOperationMode.FROST_PROTECTION => [4]

/-- Modelled from the spec: inverse direction of the single-byte enumerated
mode codec (`DPTHVACMode.from_knx`); a byte outside the enumeration fails. -/
def DPTHVACMode.from_knx : List Nat → Option HVACOperationMode
  | [1] => some HVACOperationMode.COMFORT
  | [2] => some HVACOperationMode.STANDBY
  | [3] => some HVACOperationMode.NIGHT
  | [4] => some HVACOperationMode.FROST_PROTECTION
  | _ => none

/-- Modelled from the spec: the controller-status codec, "a single-byte
controller-status bitfield" (`DPTControllerStatus.to_knx`). -/
def DPTControllerStatus.to_knx : HVACOperationMode → List Nat
  | HVACOperationMode.STANDBY => [0x22]
  | HVACOperationMode.COMFORT => [0x21]
  | HVACOperationMode.NIGHT => [0x24]
  | HVACOperationMode.FROST_PROTECTION => [0x28]

/-- Modelled from the spec: decoding of the controller-status bitfield
(`DPTControllerStatus.from_knx`), testing the mode bits in priority order; a
byte with no mode bit set fails. -/
def DPTControllerStatus.from_knx : List Nat → Option HVACOperationMode
  | [b] =>
      if b.testBit 3 then some HVACOperationMode.FROST_PROTECTION
      else if b.testBit 2 then some HVACOperationMode.NIGHT
      else if b.testBit 1 then some HVACOperationMode.STANDBY
      else if b.testBit 0 then some HVACOperationMode.COMFORT
      else none
  | _ => none

/-- Modelled from the spec: a channel binding (`RemoteValue`) "associates a
logical value with a write address and an optional separate state-read
address" and "tracks whether it has been initialized".  `α` is the channel's
typed value (`ℚ` for the temperature channels, `ℤ` for the 1-count channel). -/
structure RemoteValue (α : Type) where
  group_address : Option Addr
  group_address_state : Option Addr
  value : Option α
deriving DecidableEq

/-- Modelled from the spec: a channel binding "reports whether a given telegram
belongs to it"; an unconfigured binding always reports not-mine. -/
def RemoteValue.has_group_address {α : Type} (rv : RemoteValue α) (addr : Addr) : Prop :=
  rv.group_address = some addr ∨ rv.group_address_state = some addr

instance {α : Type} (rv : RemoteValue α) (addr : Addr) :
    Decidable (rv.has_group_address addr) := by
  unfold RemoteValue.has_group_address
  infer_instance

/-- Modelled from the spec: a channel binding "reports whether it has received
at least one value". -/
def RemoteValue.initialized {α : Type} (rv : RemoteValue α) : Bool :=
  rv.value.isSome

/-- Modelled from the spec: a channel binding "contributes its state address if
present, else its write address, else nothing" to the poll list. -/
def RemoteValue.state_addresses {α : Type} (rv : RemoteValue α) : List Addr :=
  match rv.group_address_state with
  | some a => [a]
  | none =>
      match rv.group_address with
      | some a => [a]
      | none => []

/-- Modelled from the spec: inbound delivery to a channel binding.  The binding
"independently reports whether it accepted (i.e., the telegram's address
matched and decoding succeeded) and, if so, whether its stored value changed";
the returned flag is true exactly for an accepted delivery that changed the
stored value. -/
def RemoteValue.process {α : Type} [DecidableEq α] (from_knx : Payload → Option α)
    (rv : RemoteValue α) (t : Telegram) : RemoteValue α × Bool :=
  if rv.has_group_address t.group_address then
    match from_knx t.payload with
    | some v => ({ rv with value := some v }, decide (rv.value ≠ some v))
    | none => (rv, false)
  else (rv, false)

/-- Modelled from the spec: writing a value to a channel binding encodes it and
sends it to the write address, recording the value as the binding's current
one. -/
def RemoteValue.set {α : Type} (to_knx : α → Payload) (rv : RemoteValue α) (v : α) :
    RemoteValue α × List Event :=
  match rv.group_address with
  | some a => ({ rv with value := some v }, [Event.telegramSent a (to_knx v)])
  | none => (rv, [])

/-- Modelled from the spec: the temperature channel binding (`RemoteValueTemp`)
"decodes an inbound telegram into a typed value" from a two-byte payload; the
numeric interpretation of the two bytes is abstracted to an injective reading. -/
def RemoteValueTemp.from_knx : Payload → Option ℚ
  | Payload.array [hi, lo] => some ((hi * 256 + lo : Nat) : ℚ)
  | _ => none

/-- Modelled from the spec: the 1-count channel binding (`RemoteValue1Count`)
decodes a one-byte payload as a signed small integer. -/
def RemoteValue1Count.from_knx : Payload → Option ℤ
  | Payload.array [b] => some (if b < 128 then (b : ℤ) else (b : ℤ) - 256)
  | _ => none

/-- Modelled from the spec: the 1-count channel binding encodes a signed small
integer as one byte. -/
def RemoteValue1Count.to_knx (v : ℤ) : Payload :=
  Payload.array [(v % 256).toNat]

/-- The exceptions raised by telegram processing: `CouldNotParseTelegram` for a
wrong payload shape, `ConversionError` for a byte outside the codec's range. -/
inductive XknxError where
  | CouldNotParseTelegram
  | ConversionError
deriving DecidableEq

deriving instance DecidableEq for Except

/-- The `Climate` device: name, the seven raw operation-mode/controller-status
addresses, the mutable operation mode, the four channel bindings, and the
capability flag computed at construction. -/
structure Climate where
  name : String
  group_address_operation_mode : Option Addr
  group_address_operation_mode_state : Option Addr
  group_address_operation_mode_protection : Option Addr
  group_address_operation_mode_night : Option Addr
  group_address_operation_mode_comfort : Option Addr
  group_address_controller_status : Option Addr
  group_address_controller_status_state : Option Addr
  operation_mode : HVACOperationMode
  temperature : RemoteValue ℚ
  target_temperature : RemoteValue ℚ
  setpoint : RemoteValue ℚ
  setpoint_shift : RemoteValue ℤ
  supports_operation_mode : Bool
deriving DecidableEq

/-- `Climate.__init__`: stores the raw addresses, initializes
`operation_mode` to `STANDBY`, builds the four channel bindings, and computes
`supports_operation_mode` as the disjunction of "is configured" over the seven
mode/status addresses. -/
def Climate.init (name : String)
    (group_address_temperature group_address_target_temperature
     group_address_setpoint group_address_setpoint_shift
     group_address_setpoint_shift_state group_address_operation_mode
     group_address_operation_mode_state group_address_operation_mode_protection
     group_address_operation_mode_night group_address_operation_mode_comfort
     group_address_controller_status group_address_controller_status_state :
     Option Addr) : Climate where
  name := name
  group_address_operation_mode := group_address_operation_mode
  group_address_operation_mode_state := group_address_operation_mode_state
  group_address_operation_mode_protection := group_address_operation_mode_protection
  group_address_operation_mode_night := group_address_operation_mode_night
  group_address_operation_mode_comfort := group_address_operation_mode_comfort
  group_address_controller_status := group_address_controller_status
  group_address_controller_status_state := group_address_controller_status_state
  operation_mode := HVACOperationMode.STANDBY
  temperature := ⟨group_address_temperature, none, none⟩
  target_temperature := ⟨group_address_target_temperature, none, none⟩
  setpoint := ⟨group_address_setpoint, none, none⟩
  setpoint_shift :=
    ⟨group_address_setpoint_shift, group_address_setpoint_shift_state, none⟩
  supports_operation_mode :=
    group_address_operation_mode.isSome ||
    group_address_operation_mode_state.isSome ||
    group_address_operation_mode_protection.isSome ||
    group_address_operation_mode_night.isSome ||
    group_address_operation_mode_comfort.isSome ||
    group_address_controller_status.isSome ||
    group_address_controller_status_state.isSome

/-- A `Climate` value is well formed when its capability flag agrees with its
configuration, as established by `Climate.init` (the configuration is immutable
afterwards). -/
def Climate.wf (c : Climate) : Prop :=
  c.supports_operation_mode =
    (c.group_address_operation_mode.isSome ||
     c.group_address_operation_mode_state.isSome ||
     c.group_address_operation_mode_protection.isSome ||
     c.group_address_operation_mode_night.isSome ||
     c.group_address_operation_mode_comfort.isSome ||
     c.group_address_controller_status.isSome ||
     c.group_address_controller_status_state.isSome)

/-- `Climate.has_group_address`: true if any owned binding or raw address
equals the given address. -/
def Climate.has_group_address (c : Climate) (group_address : Addr) : Prop :=
  c.temperature.has_group_address group_address ∨
  c.target_temperature.has_group_address group_address ∨
  c.setpoint.has_group_address group_address ∨
  c.setpoint_shift.has_group_address group_address ∨
  c.group_address_operation_mode = some group_address ∨
  c.group_address_operation_mode_state = some group_address ∨
  c.group_address_operation_mode_protection = some group_address ∨
  c.group_address_operation_mode_night = some group_address ∨
  c.group_address_operation_mode_comfort = some group_address ∨
  c.group_address_controller_status = some group_address ∨
  c.group_address_controller_status_state = some group_address

/-- `Climate._set_internal_operation_mode`: store the new mode and emit one
`after_update` notification exactly when it differs from the stored one. -/
def Climate._set_internal_operation_mode (c : Climate)
    (operation_mode : HVACOperationMode) : Climate × List Event :=
  if operation_mode ≠ c.operation_mode then
    ({ c with operation_mode := operation_mode }, [Event.notify])
  else (c, [])

/-- Python truthiness of an optional rational (`not self.setpoint.value` is
true for both `None` and `0`). -/
def pyTruthy (v : Option ℚ) : Bool :=
  match v with
  | none => false
  | some q => decide (q ≠ 0)

/-- Truncation of a rational toward zero, the behaviour of Python's `int()` on
a quotient. -/
def truncTowardZero (q : ℚ) : ℤ :=
  if q < 0 then ⌈q⌉ else ⌊q⌋

/-- `Climate.set_target_temperature_comfort`: warn and return if the setpoint
value is falsy (`not self.setpoint.value`: unknown or zero) or the
setpoint-shift binding is uninitialized; otherwise send the truncated offset
`int((target - setpoint) / 0.1)` to the setpoint-shift binding. -/
def Climate.set_target_temperature_comfort (c : Climate)
    (target_temperature_comfort : ℚ) : Climate × List Event :=
  match c.setpoint.value with
  | none =>
      (c, [Event.warning "Setpoint temperature not know. Cant set target temperature"])
  | some v =>
      if v = 0 then
        (c, [Event.warning "Setpoint temperature not know. Cant set target temperature"])
      else if ¬c.setpoint_shift.initialized then
        (c, [Event.warning "Setpoint shift not know. Cant set target temperature"])
      else
        let setpoint_shift := truncTowardZero ((target_temperature_comfort - v) / (1 / 10))
        let r := RemoteValue.set RemoteValue1Count.to_knx c.setpoint_shift setpoint_shift
        ({ c with setpoint_shift := r.1 }, r.2)

/-- `Climate.target_temperature_comfort` (property): `setpoint + 0.5 * shift`
when both are known (with a leftover debug print), else `None` — with a debug
print fired only for the device named `Kitchen.Thermostat`. -/
def Climate.target_temperature_comfort (c : Climate) : Option ℚ × List Event :=
  match c.setpoint.value, c.setpoint_shift.value with
  | some sp, some sh =>
      (some (sp + 1 / 2 * (sh : ℚ)), [Event.printed "XXXXXX target_temperature_comfort"])
  | _, _ =>
      (none,
        if c.name = "Kitchen.Thermostat" then
          [Event.printed "XXXXXX NO target_temperature_comfort possible"]
        else [])

/-- An address-gated send: one outbound telegram if the address slot is
configured, nothing otherwise (each `if address is not None: send(...)` step). -/
def optSend (o : Option Addr) (p : Payload) : List Event :=
  match o with
  | some a => [Event.telegramSent a p]
  | none => []

/-- `Climate.set_operation_mode`: no-op without mode support; otherwise send,
in order and each gated on its address being configured, the codec-encoded
mode, the three sub-mode booleans, and the codec-encoded controller status,
then update the internal mode via `set_internal_operation_mode`. -/
def Climate.set_operation_mode (c : Climate)
    (operation_mode : HVACOperationMode) : Climate × List Event :=
  if ¬c.supports_operation_mode then (c, [])
  else
    let e1 := optSend c.group_address_operation_mode
      (Payload.array (DPTHVACMode.to_knx operation_mode))
    let e2 := optSend c.group_address_operation_mode_protection
      (Payload.binary (decide (operation_mode = HVACOperationMode.FROST_PROTECTION)))
    let e3 := optSend c.group_address_operation_mode_night
      (Payload.binary (decide (operation_mode = HVACOperationMode.NIGHT)))
    let e4 := optSend c.group_address_operation_mode_comfort
      (Payload.binary (decide (operation_mode = HVACOperationMode.COMFORT)))
    let e5 := optSend c.group_address_controller_status
      (Payload.array (DPTControllerStatus.to_knx operation_mode))
    let r := c._set_internal_operation_mode operation_mode
    (r.1, e1 ++ e2 ++ e3 ++ e4 ++ e5 ++ r.2)

/-- `Climate.get_supported_operation_modes`: empty without mode support; the
full enumeration when the generic mode or controller-status address is
configured; otherwise the subset built from the configured sub-mode flags with
`STANDBY` always included. -/
def Climate.get_supported_operation_modes (c : Climate) : List HVACOperationMode :=
  if ¬c.supports_operation_mode then []
  else if c.group_address_operation_mode.isSome then allHVACOperationModes
  else if c.group_address_controller_status.isSome then allHVACOperationModes
  else
    (if c.group_address_operation_mode_comfort.isSome then
        [HVACOperationMode.COMFORT] else []) ++
    [HVACOperationMode.STANDBY] ++
    (if c.group_address_operation_mode_night.isSome then
        [HVACOperationMode.NIGHT] else []) ++
    (if c.group_address_operation_mode_protection.isSome then
        [HVACOperationMode.FROST_PROTECTION] else [])

/-- The five debug prints fired at the end of `Climate.process` for the device
named `Kitchen.Thermostat` (separator, telegram, device, setpoint value,
separator); rendering abstracted to tags. -/
def kitchenDebugEvents : List Event :=
  [Event.printed "-----------------------",
   Event.printed "telegram",
   Event.printed "self",
   Event.printed "setpoint.value",
   Event.printed "-----------------------"]

/-- The channel-delivery tail of `Climate.process`: deliver the telegram to
the temperature, target-temperature, setpoint and setpoint-shift bindings in
that order, emitting one `after_update` notification per accepted-and-changed
delivery, then fire the `Kitchen.Thermostat` debug prints. -/
def Climate.processChannels (c : Climate) (t : Telegram) : Climate × List Event :=
  let r1 := RemoteValue.process RemoteValueTemp.from_knx c.temperature t
  let e1 := if r1.2 then [Event.notify] else []
  let r2 := RemoteValue.process RemoteValueTemp.from_knx c.target_temperature t
  let e2 := if r2.2 then [Event.notify] else []
  let r3 := RemoteValue.process RemoteValueTemp.from_knx c.setpoint t
  let e3 := if r3.2 then [Event.notify] else []
  let r4 := RemoteValue.process RemoteValue1Count.from_knx c.setpoint_shift t
  let e4 := if r4.2 then [Event.notify] else []
  let eDebug := if c.name = "Kitchen.Thermostat" then kitchenDebugEvents else []
  ({ c with temperature := r1.1, target_temperature := r2.1,
            setpoint := r3.1, setpoint_shift := r4.1 },
   e1 ++ e2 ++ e3 ++ e4 ++ eDebug)

/-- `Climate._process_operation_mode`: raise `CouldNotParseTelegram` unless the
payload is exactly a one-byte array, decode via `DPTHVACMode.from_knx`
(raising `ConversionError` on an unknown byte), and store the decoded mode via
`set_internal_operation_mode`. -/
def Climate._process_operation_mode (c : Climate) (t : Telegram) :
    Except XknxError (Climate × List Event) :=
  match t.payload with
  | Payload.array [b] =>
      match DPTHVACMode.from_knx [b] with
      | some m => Except.ok (c._set_internal_operation_mode m)
      | none => Except.error XknxError.ConversionError
  | _ => Except.error XknxError.CouldNotParseTelegram

/-- `Climate._process_controller_status`: as `process_operation_mode` but via
`DPTControllerStatus.from_knx`. -/
def Climate._process_controller_status (c : Climate) (t : Telegram) :
    Except XknxError (Climate × List Event) :=
  match t.payload with
  | Payload.array [b] =>
      match DPTControllerStatus.from_knx [b] with
      | some m => Except.ok (c._set_internal_operation_mode m)
      | none => Except.error XknxError.ConversionError
  | _ => Except.error XknxError.CouldNotParseTelegram

/-- `Climate.process`: dispatch the telegram.  The two raw-address branch
conditions keep Python's `and`/`or` precedence
(`supports and addr == write or addr == state`); after the raw branch the
telegram is always delivered to the four channel bindings. -/
def Climate.process (c : Climate) (t : Telegram) :
    Except XknxError (Climate × List Event) :=
  if (c.supports_operation_mode ∧
        c.group_address_operation_mode = some t.group_address) ∨
      c.group_address_operation_mode_state = some t.group_address then
    match c._process_operation_mode t with
    | Except.error e => Except.error e
    | Except.ok r =>
        let r2 := r.1.processChannels t
        Except.ok (r2.1, r.2 ++ r2.2)
  else if (c.supports_operation_mode ∧
        c.group_address_controller_status = some t.group_address) ∨
      c.group_address_controller_status_state = some t.group_address then
    match c._process_controller_status t with
    | Except.error e => Except.error e
    | Except.ok r =>
        let r2 := r.1.processChannels t
        Except.ok (r2.1, r.2 ++ r2.2)
  else
    Except.ok (c.processChannels t)

/-- `Climate.state_addresses`: the four channel bindings' poll addresses, then
(only with mode support) the operation-mode state address falling back to the
write address, then the controller-status state address falling back to the
write address. -/
def Climate.state_addresses (c : Climate) : List Addr :=
  c.temperature.state_addresses ++
  c.target_temperature.state_addresses ++
  c.setpoint.state_addresses ++
  c.setpoint_shift.state_addresses ++
  (if c.supports_operation_mode then
     (match c.group_address_operation_mode_state with
      | some a => [a]
      | none =>
          match c.group_address_operation_mode with
          | some a => [a]
          | none => []) ++
     (match c.group_address_controller_status_state with
      | some a => [a]
      | none =>
          match c.group_address_controller_status with
          | some a => [a]
          | none => [])
   else [])

/-- Number of `after_update` change notifications in an event trace. -/
def notifyCount (events : List Event) : Nat :=
  events.count Event.notify

/-- The outbound telegrams of an event trace, in order. -/
def sentEvents (events : List Event) : List Event :=
  events.filter fun e =>
    match e with
    | Event.telegramSent _ _ => true
    | _ => false

/-- The poll-address fallback rule as the specification words it: prefer the
dedicated state address, else reuse the write address, else omit the entry. -/
def pollPrefer (state write : Option Addr) : List Addr :=
  match state with
  | some a => [a]
  | none =>
      match write with
      | some a => [a]
      | none => []

/-- A fully configured example device used to instantiate the theorems. -/
def exampleClimate : Climate :=
  Climate.init "Living" (some 1) (some 2) (some 3) (some 4) (some 5)
    (some 10) (some 11) (some 12) (some 13) (some 14) (some 20) (some 21)

/-- The same configuration under the debug-special device name. -/
def kitchenClimate : Climate :=
  Climate.init "Kitchen.Thermostat" (some 1) (some 2) (some 3) (some 4) (some 5)
    (some 10) (some 11) (some 12) (some 13) (some 14) (some 20) (some 21)

/-- Device whose setpoint channel holds the known value 0 with an initialized
setpoint-shift channel. -/
def zeroSetpointClimate : Climate :=
  { exampleClimate with
      setpoint := ⟨some 3, none, some 0⟩,
      setpoint_shift := ⟨some 4, some 5, some 2⟩ }

/-- Device whose setpoint channel holds the known value 20 with an initialized
setpoint-shift channel. -/
def knownSetpointClimate : Climate :=
  { exampleClimate with
      setpoint := ⟨some 3, none, some 20⟩,
      setpoint_shift := ⟨some 4, some 5, some 2⟩ }

/-- Notification counts add over concatenated event traces. -/
theorem notifyCount_append (a b : List Event) :
    notifyCount (a ++ b) = notifyCount a + notifyCount b := by
  simp [notifyCount, List.count_append]

/-- Outbound-telegram extraction distributes over concatenation. -/
theorem sentEvents_append (a b : List Event) :
    sentEvents (a ++ b) = sentEvents a ++ sentEvents b := by
  simp [sentEvents, List.filter_append]

/-- An address-gated send contributes no notification. -/
theorem notifyCount_optSend (o : Option Addr) (p : Payload) :
    notifyCount (optSend o p) = 0 := by
  cases o <;> simp [optSend, notifyCount, List.count_cons, List.count_nil]

/-- An address-gated send consists of outbound telegrams only. -/
theorem sentEvents_optSend (o : Option Addr) (p : Payload) :
    sentEvents (optSend o p) = optSend o p := by
  cases o <;> simp [optSend, sentEvents]

/-- Closed form of `_set_internal_operation_mode`: the mode is always stored
and one notification is emitted exactly when it changed. -/
theorem set_internal_eq (c : Climate) (m : HVACOperationMode) :
    c._set_internal_operation_mode m =
      ({ c with operation_mode := m }, if m = c.operation_mode then [] else [Event.notify]) := by
  unfold Climate._set_internal_operation_mode
  split
  · simp_all
  · next h =>
    simp at h
    subst h
    simp

/-- Closed form of `set_operation_mode` under mode support: the five gated
sends in order, then the conditional notification, with the mode stored. -/
theorem set_operation_mode_eq (c : Climate) (m : HVACOperationMode)
    (hsup : c.supports_operation_mode = true) :
    c.set_operation_mode m =
      ({ c with operation_mode := m },
       optSend c.group_address_operation_mode (Payload.array (DPTHVACMode.to_knx m)) ++
       optSend c.group_address_operation_mode_protection
         (Payload.binary (decide (m = HVACOperationMode.FROST_PROTECTION))) ++
       optSend c.group_address_operation_mode_night
         (Payload.binary (decide (m = HVACOperationMode.NIGHT))) ++
       optSend c.group_address_operation_mode_comfort
         (Payload.binary (decide (m = HVACOperationMode.COMFORT))) ++
       optSend c.group_address_controller_status
         (Payload.array (DPTControllerStatus.to_knx m)) ++
       (if m = c.operation_mode then [] else [Event.notify])) := by
  unfold Climate.set_operation_mode
  rw [set_internal_eq]
  simp [hsup]

/-- Claim C1: every accepted operation-mode assignment funnels through
`_set_internal_operation_mode`, which emits exactly one change notification
when the new mode differs from the stored one and zero when it is equal; and
calling `set_operation_mode m` twice in a row from a state whose stored mode
differs from `m` emits exactly one notification in total (on the first call)
while sending the same full set of configured telegrams on both calls. -/
theorem C1_one_notification_per_mode_assignment (c : Climate) (m : HVACOperationMode)
    (hsup : c.supports_operation_mode = true) (hne : c.operation_mode ≠ m) :
    (∀ (c2 : Climate) (m2 : HVACOperationMode),
        notifyCount (c2._set_internal_operation_mode m2).2
          = if m2 = c2.operation_mode then 0 else 1) ∧
    notifyCount (c.set_operation_mode m).2 = 1 ∧
    notifyCount ((c.set_operation_mode m).1.set_operation_mode m).2 = 0 ∧
    sentEvents ((c.set_operation_mode m).1.set_operation_mode m).2
      = sentEvents (c.set_operation_mode m).2 := by
  have hm : ¬(m = c.operation_mode) := fun h => hne h.symm
  have hfst : (c.set_operation_mode m).1 = { c with operation_mode := m } := by
    rw [set_operation_mode_eq c m hsup]
  have hsup2 : ({ c with operation_mode := m } : Climate).supports_operation_mode = true := hsup
  refine ⟨?_, ?_, ?_, ?_⟩
  · intro c2 m2
    rw [set_internal_eq]
    split <;> simp [notifyCount]
  · rw [set_operation_mode_eq c m hsup]
    simp only [notifyCount_append, notifyCount_optSend, if_neg hm]
    simp [notifyCount]
  · rw [hfst, set_operation_mode_eq _ m hsup2]
    simp only [notifyCount_append, notifyCount_optSend]
    simp [notifyCount]
  · rw [hfst, set_operation_mode_eq _ m hsup2, set_operation_mode_eq c m hsup]
    simp only [sentEvents_append, sentEvents_optSend, if_neg hm]
    simp [sentEvents]

/-- Witness for `C1_one_notification_per_mode_assignment` on a fully
configured device switching to `COMFORT`. -/
theorem C1_witness :
    exampleClimate.supports_operation_mode = true ∧
    exampleClimate.operation_mode ≠ HVACOperationMode.COMFORT ∧
    notifyCount (exampleClimate.set_operation_mode HVACOperationMode.COMFORT).2 = 1 ∧
    notifyCount ((exampleClimate.set_operation_mode
        HVACOperationMode.COMFORT).1.set_operation_mode HVACOperationMode.COMFORT).2 = 0 :=
  ⟨rfl, by decide,
    (C1_one_notification_per_mode_assignment exampleClimate HVACOperationMode.COMFORT
        rfl (by decide)).2.1,
    (C1_one_notification_per_mode_assignment exampleClimate HVACOperationMode.COMFORT
        rfl (by decide)).2.2.1⟩

/-- Claim C2 (exhibiting the code defect): the device name does affect
observable output.  Two devices identical except for their name (the first
conjunct) produce different output from `process` on the same unmatched
telegram and from the `target_temperature_comfort` accessor, because the
source branches on the name `Kitchen.Thermostat` to fire debug prints. -/
theorem C2_name_branching_divergence :
    ({ kitchenClimate with name := exampleClimate.name } = exampleClimate) ∧
    (kitchenClimate.process ⟨99, Payload.binary true⟩
       = Except.ok (kitchenClimate, kitchenDebugEvents)) ∧
    (exampleClimate.process ⟨99, Payload.binary true⟩
       = Except.ok (exampleClimate, [])) ∧
    kitchenClimate.target_temperature_comfort.2
      ≠ exampleClimate.target_temperature_comfort.2 := by
  refine ⟨by decide, by decide, by decide, by decide⟩

/-- Claim C3: `supports_operation_mode` is computed at construction as true
iff at least one of the seven mode/status addresses is configured; and for a
construction configuring none of them, `set_operation_mode` sends no telegram
and changes no state, and the operation-mode and controller-status branches of
`process` never fire: every telegram takes the channel-delivery path only. -/
theorem C3_supports_operation_mode_capability (name : String)
    (gaT gaTT gaSP gaSS gaSSS gaOM gaOMS gaP gaN gaC gaCS gaCSS : Option Addr) :
    (Climate.init name gaT gaTT gaSP gaSS gaSSS gaOM gaOMS gaP gaN
        gaC gaCS gaCSS).supports_operation_mode
      = (gaOM.isSome || gaOMS.isSome || gaP.isSome || gaN.isSome ||
         gaC.isSome || gaCS.isSome || gaCSS.isSome) ∧
    (gaOM = none → gaOMS = none → gaP = none → gaN = none → gaC = none →
     gaCS = none → gaCSS = none →
      (∀ (m : HVACOperationMode),
        (Climate.init name gaT gaTT gaSP gaSS gaSSS gaOM gaOMS gaP gaN
            gaC gaCS gaCSS).set_operation_mode m
          = (Climate.init name gaT gaTT gaSP gaSS gaSSS gaOM gaOMS gaP gaN
              gaC gaCS gaCSS, [])) ∧
      (∀ (t : Telegram),
        (Climate.init name gaT gaTT gaSP gaSS gaSSS gaOM gaOMS gaP gaN
            gaC gaCS gaCSS).process t
          = Except.ok ((Climate.init name gaT gaTT gaSP gaSS gaSSS gaOM gaOMS gaP gaN
              gaC gaCS gaCSS).processChannels t))) := by
  refine ⟨rfl, ?_⟩
  intro h1 h2 h3 h4 h5 h6 h7
  subst h1; subst h2; subst h3; subst h4; subst h5; subst h6; subst h7
  constructor
  · intro m
    simp [Climate.set_operation_mode, Climate.init]
  · intro t
    simp [Climate.process, Climate.init]

/-- Witness for `C3_supports_operation_mode_capability` on a device with no
address configured. -/
theorem C3_witness :
    (Climate.init "w" none none none none none none none none none none none
        none).set_operation_mode HVACOperationMode.COMFORT
      = (Climate.init "w" none none none none none none none none none none none none, []) :=
  ((C3_supports_operation_mode_capability "w" none none none none none none none
      none none none none none).2
    rfl rfl rfl rfl rfl rfl rfl).1 HVACOperationMode.COMFORT

/-- Claim C4: with mode support, `set_operation_mode m` sends, in this order
and each only if its address is configured: the mode-codec encoding of `m` to
the generic mode address, the boolean `m = FROST_PROTECTION` to the
protection-flag address, the boolean `m = NIGHT` to the night-flag address,
the boolean `m = COMFORT` to the comfort-flag address, and the
controller-status encoding of `m` to the controller-status address; and then
unconditionally leaves the internal `operation_mode` equal to `m`. -/
theorem C4_set_operation_mode_fanout (c : Climate) (m : HVACOperationMode)
    (hsup : c.supports_operation_mode = true) :
    c.set_operation_mode m =
      ({ c with operation_mode := m },
       (c.group_address_operation_mode.elim []
          fun a => [Event.telegramSent a (Payload.array (DPTHVACMode.to_knx m))]) ++
       (c.group_address_operation_mode_protection.elim []
          fun a => [Event.telegramSent a
            (Payload.binary (decide (m = HVACOperationMode.FROST_PROTECTION)))]) ++
       (c.group_address_operation_mode_night.elim []
          fun a => [Event.telegramSent a
            (Payload.binary (decide (m = HVACOperationMode.NIGHT)))]) ++
       (c.group_address_operation_mode_comfort.elim []
          fun a => [Event.telegramSent a
            (Payload.binary (decide (m = HVACOperationMode.COMFORT)))]) ++
       (c.group_address_controller_status.elim []
          fun a => [Event.telegramSent a (Payload.array (DPTControllerStatus.to_knx m))]) ++
       (if m = c.operation_mode then [] else [Event.notify])) ∧
    (c.set_operation_mode m).1.operation_mode = m := by
  have h := set_operation_mode_eq c m hsup
  constructor
  · rw [h]
    have : ∀ (o : Option Addr) (p : Payload),
        optSend o p = o.elim [] fun a => [Event.telegramSent a p] := by
      intro o p; cases o <;> rfl
    simp only [this]
  · rw [h]

/-- Witness for `C4_set_operation_mode_fanout` on a fully configured device
switching to `NIGHT`. -/
theorem C4_witness :
    exampleClimate.supports_operation_mode = true ∧
    (exampleClimate.set_operation_mode HVACOperationMode.NIGHT).1.operation_mode
      = HVACOperationMode.NIGHT :=
  ⟨rfl, (C4_set_operation_mode_fanout exampleClimate HVACOperationMode.NIGHT rfl).2⟩

/-- Claim C5: `get_supported_operation_modes` is a pure function of the
configuration: empty without mode support; the full fixed enumeration whenever
the generic mode address or the controller-status address is configured; and
otherwise exactly COMFORT (if its flag address is configured), STANDBY
(always), NIGHT (if configured), FROST_PROTECTION (if configured), in that
fixed order — so a device with only the comfort flag configured yields
`[COMFORT, STANDBY]`. -/
theorem C5_get_supported_operation_modes_pure (c : Climate) (hwf : c.wf) :
    (c.supports_operation_mode = false → c.get_supported_operation_modes = []) ∧
    ((c.group_address_operation_mode.isSome ∨ c.group_address_controller_status.isSome) →
       c.get_supported_operation_modes = allHVACOperationModes) ∧
    (c.supports_operation_mode = true →
     c.group_address_operation_mode = none → c.group_address_controller_status = none →
       c.get_supported_operation_modes =
         (if c.group_address_operation_mode_comfort.isSome then
             [HVACOperationMode.COMFORT] else []) ++
         [HVACOperationMode.STANDBY] ++
         (if c.group_address_operation_mode_night.isSome then
             [HVACOperationMode.NIGHT] else []) ++
         (if c.group_address_operation_mode_protection.isSome then
             [HVACOperationMode.FROST_PROTECTION] else [])) ∧
    (c.group_address_operation_mode = none → c.group_address_controller_status = none →
     c.group_address_operation_mode_state = none →
     c.group_address_operation_mode_night = none →
     c.group_address_operation_mode_protection = none →
     c.group_address_controller_status_state = none →
     c.group_address_operation_mode_comfort.isSome →
       c.get_supported_operation_modes
         = [HVACOperationMode.COMFORT, HVACOperationMode.STANDBY]) := by
  refine ⟨?_, ?_, ?_, ?_⟩
  · intro h
    simp [Climate.get_supported_operation_modes, h]
  · intro h
    have hsup : c.supports_operation_mode = true := by
      rw [hwf]
      rcases h with h | h <;> simp [h]
    rcases h with h | h
    · simp [Climate.get_supported_operation_modes, hsup, h]
    · simp [Climate.get_supported_operation_modes, hsup, h]
  · intro hsup h1 h2
    simp [Climate.get_supported_operation_modes, hsup, h1, h2]
  · intro h1 h2 h3 h4 h5 h6 h7
    have hsup : c.supports_operation_mode = true := by
      rw [hwf]
      simp [h7]
    simp [Climate.get_supported_operation_modes, hsup, h1, h2, h4, h5, h7]

/-- Witness for `C5_get_supported_operation_modes_pure` on a device with only
the comfort-flag address configured. -/
theorem C5_witness :
    (Climate.init "w" none none none none none none none none none (some 14)
        none none).wf ∧
    (Climate.init "w" none none none none none none none none none (some 14)
        none none).get_supported_operation_modes
      = [HVACOperationMode.COMFORT, HVACOperationMode.STANDBY] :=
  ⟨rfl,
    (C5_get_supported_operation_modes_pure
        (Climate.init "w" none none none none none none none none none (some 14) none none)
        rfl).2.2.2 rfl rfl rfl rfl rfl rfl (by decide)⟩

/-- Claim C6: a telegram matching no configured channel address and no
mode/status address leaves the state unchanged and emits zero notifications;
when neither raw-address branch fires, `process` is exactly the
channel-delivery path, which visits the temperature, target-temperature,
setpoint and setpoint-shift bindings in that fixed order, emits one
notification per accepted-and-changed delivery, and never touches
`operation_mode`; and a telegram on a binary sub-mode flag address
(protection/night/comfort) matches no branch and is silently ignored. -/
theorem C6_process_routing (c : Climate) (t : Telegram) :
    ((¬c.temperature.has_group_address t.group_address) →
     (¬c.target_temperature.has_group_address t.group_address) →
     (¬c.setpoint.has_group_address t.group_address) →
     (¬c.setpoint_shift.has_group_address t.group_address) →
     c.group_address_operation_mode ≠ some t.group_address →
     c.group_address_operation_mode_state ≠ some t.group_address →
     c.group_address_controller_status ≠ some t.group_address →
     c.group_address_controller_status_state ≠ some t.group_address →
       c.process t = Except.ok (c,
         if c.name = "Kitchen.Thermostat" then kitchenDebugEvents else []) ∧
       notifyCount (if c.name = "Kitchen.Thermostat" then kitchenDebugEvents else []) = 0) ∧
    (¬((c.supports_operation_mode ∧ c.group_address_operation_mode = some t.group_address) ∨
        c.group_address_operation_mode_state = some t.group_address) →
     ¬((c.supports_operation_mode ∧ c.group_address_controller_status = some t.group_address) ∨
        c.group_address_controller_status_state = some t.group_address) →
       c.process t = Except.ok (c.processChannels t)) ∧
    (notifyCount (c.processChannels t).2 =
       (if (RemoteValue.process RemoteValueTemp.from_knx c.temperature t).2 then 1 else 0) +
       (if (RemoteValue.process RemoteValueTemp.from_knx c.target_temperature t).2 then 1 else 0) +
       (if (RemoteValue.process RemoteValueTemp.from_knx c.setpoint t).2 then 1 else 0) +
       (if (RemoteValue.process RemoteValue1Count.from_knx c.setpoint_shift t).2 then 1 else 0)) ∧
    ((c.processChannels t).1.temperature
        = (RemoteValue.process RemoteValueTemp.from_knx c.temperature t).1 ∧
     (c.processChannels t).1.target_temperature
        = (RemoteValue.process RemoteValueTemp.from_knx c.target_temperature t).1 ∧
     (c.processChannels t).1.setpoint
        = (RemoteValue.process RemoteValueTemp.from_knx c.setpoint t).1 ∧
     (c.processChannels t).1.setpoint_shift
        = (RemoteValue.process RemoteValue1Count.from_knx c.setpoint_shift t).1 ∧
     (c.processChannels t).1.operation_mode = c.operation_mode) ∧
    ((c.group_address_operation_mode_protection = some t.group_address ∨
      c.group_address_operation_mode_night = some t.group_address ∨
      c.group_address_operation_mode_comfort = some t.group_address) →
     (¬c.temperature.has_group_address t.group_address) →
     (¬c.target_temperature.has_group_address t.group_address) →
     (¬c.setpoint.has_group_address t.group_address) →
     (¬c.setpoint_shift.has_group_address t.group_address) →
     c.group_address_operation_mode ≠ some t.group_address →
     c.group_address_operation_mode_state ≠ some t.group_address →
     c.group_address_controller_status ≠ some t.group_address →
     c.group_address_controller_status_state ≠ some t.group_address →
       c.process t = Except.ok (c,
         if c.name = "Kitchen.Thermostat" then kitchenDebugEvents else []) ∧
       (c.processChannels t).1.operation_mode = c.operation_mode) := by
  have hchan : ∀ (h1 : ¬c.temperature.has_group_address t.group_address)
      (h2 : ¬c.target_temperature.has_group_address t.group_address)
      (h3 : ¬c.setpoint.has_group_address t.group_address)
      (h4 : ¬c.setpoint_shift.has_group_address t.group_address),
      c.processChannels t
        = (c, if c.name = "Kitchen.Thermostat" then kitchenDebugEvents else []) := by
    intro h1 h2 h3 h4
    simp [Climate.processChannels, RemoteValue.process, h1, h2, h3, h4]
  refine ⟨?_, ?_, ?_, ?_, ?_⟩
  · intro h1 h2 h3 h4 h5 h6 h7 h8
    constructor
    · rw [Climate.process]
      rw [if_neg (by simp [h5, h6])]
      rw [if_neg (by simp [h7, h8])]
      rw [hchan h1 h2 h3 h4]
    · split <;> simp [kitchenDebugEvents, notifyCount]
  · intro h1 h2
    rw [Climate.process, if_neg h1, if_neg h2]
  · simp only [Climate.processChannels, notifyCount_append]
    split <;> split <;> split <;> split <;>
      simp [notifyCount, kitchenDebugEvents] <;> split <;> simp [notifyCount]
  · refine ⟨rfl, rfl, rfl, rfl, rfl⟩
  · intro hflag h1 h2 h3 h4 h5 h6 h7 h8
    constructor
    · rw [Climate.process]
      rw [if_neg (by simp [h5, h6])]
      rw [if_neg (by simp [h7, h8])]
      rw [hchan h1 h2 h3 h4]
    · rfl

/-- Witness for `C6_process_routing` on a fully configured device and a
telegram to an unmatched address. -/
theorem C6_witness :
    exampleClimate.process ⟨99, Payload.binary true⟩
      = Except.ok (exampleClimate,
          if exampleClimate.name = "Kitchen.Thermostat" then kitchenDebugEvents else []) ∧
    notifyCount
      (if exampleClimate.name = "Kitchen.Thermostat" then kitchenDebugEvents else []) = 0 :=
  (C6_process_routing exampleClimate ⟨99, Payload.binary true⟩).1
    (by decide) (by decide) (by decide) (by decide)
    (by decide) (by decide) (by decide) (by decide)

/-- Claim C7: for a telegram taking the generic-mode branch (or the
controller-status branch), a payload that is not exactly a one-byte array
makes `process` propagate the `CouldNotParseTelegram` decode error to its
caller (no state is produced, so the caller's instance is untouched and
remains usable); with a well-formed one-byte payload the decoded mode is
stored and a single notification is emitted iff it differs from the stored
`operation_mode`. -/
theorem C7_mode_decode (c : Climate) (t : Telegram) :
    (((c.supports_operation_mode ∧ c.group_address_operation_mode = some t.group_address) ∨
       c.group_address_operation_mode_state = some t.group_address) →
      ((∀ b : Nat, t.payload ≠ Payload.array [b]) →
         c.process t = Except.error XknxError.CouldNotParseTelegram) ∧
      (∀ (b : Nat) (m : HVACOperationMode), t.payload = Payload.array [b] →
         DPTHVACMode.from_knx [b] = some m →
         (¬c.temperature.has_group_address t.group_address) →
         (¬c.target_temperature.has_group_address t.group_address) →
         (¬c.setpoint.has_group_address t.group_address) →
         (¬c.setpoint_shift.has_group_address t.group_address) →
           c.process t = Except.ok ({ c with operation_mode := m },
             (if m = c.operation_mode then [] else [Event.notify]) ++
             (if c.name = "Kitchen.Thermostat" then kitchenDebugEvents else [])))) ∧
    (¬((c.supports_operation_mode ∧ c.group_address_operation_mode = some t.group_address) ∨
        c.group_address_operation_mode_state = some t.group_address) →
     ((c.supports_operation_mode ∧ c.group_address_controller_status = some t.group_address) ∨
       c.group_address_controller_status_state = some t.group_address) →
      ((∀ b : Nat, t.payload ≠ Payload.array [b]) →
         c.process t = Except.error XknxError.CouldNotParseTelegram) ∧
      (∀ (b : Nat) (m : HVACOperationMode), t.payload = Payload.array [b] →
         DPTControllerStatus.from_knx [b] = some m →
         (¬c.temperature.has_group_address t.group_address) →
         (¬c.target_temperature.has_group_address t.group_address) →
         (¬c.setpoint.has_group_address t.group_address) →
         (¬c.setpoint_shift.has_group_address t.group_address) →
           c.process t = Except.ok ({ c with operation_mode := m },
             (if m = c.operation_mode then [] else [Event.notify]) ++
             (if c.name = "Kitchen.Thermostat" then kitchenDebugEvents else [])))) := by
  have hchan : ∀ (c2 : Climate), ¬c2.temperature.has_group_address t.group_address →
      ¬c2.target_temperature.has_group_address t.group_address →
      ¬c2.setpoint.has_group_address t.group_address →
      ¬c2.setpoint_shift.has_group_address t.group_address →
      c2.processChannels t
        = (c2, if c2.name = "Kitchen.Thermostat" then kitchenDebugEvents else []) := by
    intro c2 h1 h2 h3 h4
    simp [Climate.processChannels, RemoteValue.process, h1, h2, h3, h4]
  have hbad : (∀ b : Nat, t.payload ≠ Payload.array [b]) →
      c._process_operation_mode t = Except.error XknxError.CouldNotParseTelegram ∧
      c._process_controller_status t = Except.error XknxError.CouldNotParseTelegram := by
    intro h
    constructor <;>
      · first
          | (rw [Climate._process_operation_mode])
          | (rw [Climate._process_controller_status])
        match hp : t.payload with
        | Payload.array [] => rfl
        | Payload.array [b] => exact absurd hp (h b)
        | Payload.array (b1 :: b2 :: rest) => rfl
        | Payload.binary v => rfl
  constructor
  · intro hbranch
    constructor
    · intro h
      rw [Climate.process, if_pos hbranch]
      simp only [(hbad h).1]
    · intro b m hp hdec h1 h2 h3 h4
      have hpom : c._process_operation_mode t
          = Except.ok ({ c with operation_mode := m },
              if m = c.operation_mode then [] else [Event.notify]) := by
        simp only [Climate._process_operation_mode, hp, hdec, set_internal_eq]
      rw [Climate.process, if_pos hbranch]
      simp only [hpom]
      rw [hchan { c with operation_mode := m } h1 h2 h3 h4]
  · intro hnb hbranch
    constructor
    · intro h
      rw [Climate.process, if_neg hnb, if_pos hbranch]
      simp only [(hbad h).2]
    · intro b m hp hdec h1 h2 h3 h4
      have hpcs : c._process_controller_status t
          = Except.ok ({ c with operation_mode := m },
              if m = c.operation_mode then [] else [Event.notify]) := by
        simp only [Climate._process_controller_status, hp, hdec, set_internal_eq]
      rw [Climate.process, if_neg hnb, if_pos hbranch]
      simp only [hpcs]
      rw [hchan { c with operation_mode := m } h1 h2 h3 h4]

/-- Witness for `C7_mode_decode`: a malformed payload on the generic mode
address errors out, and a well-formed one stores `COMFORT` with one
notification. -/
theorem C7_witness :
    exampleClimate.process ⟨10, Payload.binary true⟩
      = Except.error XknxError.CouldNotParseTelegram ∧
    exampleClimate.process ⟨10, Payload.array [1]⟩
      = Except.ok ({ exampleClimate with operation_mode := HVACOperationMode.COMFORT },
          (if HVACOperationMode.COMFORT = exampleClimate.operation_mode then []
           else [Event.notify]) ++
          (if exampleClimate.name = "Kitchen.Thermostat" then kitchenDebugEvents else [])) :=
  ⟨((C7_mode_decode exampleClimate ⟨10, Payload.binary true⟩).1 (Or.inl ⟨rfl, rfl⟩)).1
      (fun b h => Payload.noConfusion h),
   ((C7_mode_decode exampleClimate ⟨10, Payload.array [1]⟩).1 (Or.inl ⟨rfl, rfl⟩)).2
      1 HVACOperationMode.COMFORT rfl rfl
      (by decide) (by decide) (by decide) (by decide)⟩

/-- Claim C8: `state_addresses` returns, in order, the poll addresses of the
temperature, target-temperature, setpoint and setpoint-shift bindings, then —
only with mode support — the operation-mode entry and the controller-status
entry, each preferring the configured state address over the write address and
omitted when neither is configured. -/
theorem C8_state_addresses_fallback (c : Climate) :
    c.state_addresses =
      pollPrefer c.temperature.group_address_state c.temperature.group_address ++
      pollPrefer c.target_temperature.group_address_state c.target_temperature.group_address ++
      pollPrefer c.setpoint.group_address_state c.setpoint.group_address ++
      pollPrefer c.setpoint_shift.group_address_state c.setpoint_shift.group_address ++
      (if c.supports_operation_mode then
         pollPrefer c.group_address_operation_mode_state c.group_address_operation_mode ++
         pollPrefer c.group_address_controller_status_state c.group_address_controller_status
       else []) := by
  rfl

/-- Claim C9 counterexample: with the setpoint channel holding the known
value 0 and the setpoint-shift channel initialized, the claimed precondition
for the write path is satisfied, and yet `set_target_temperature_comfort 21`
changes nothing and sends nothing, only warning — refuting the claim as
stated. -/
theorem C9_counterexample_zero_setpoint :
    zeroSetpointClimate.setpoint.value.isSome = true ∧
    zeroSetpointClimate.setpoint_shift.initialized = true ∧
    (zeroSetpointClimate.set_target_temperature_comfort 21).1 = zeroSetpointClimate ∧
    (zeroSetpointClimate.set_target_temperature_comfort 21).2
      = [Event.warning "Setpoint temperature not know. Cant set target temperature"] ∧
    sentEvents (zeroSetpointClimate.set_target_temperature_comfort 21).2 = [] := by
  have h : zeroSetpointClimate.set_target_temperature_comfort 21
      = (zeroSetpointClimate,
         [Event.warning "Setpoint temperature not know. Cant set target temperature"]) := by
    simp [Climate.set_target_temperature_comfort, zeroSetpointClimate]
  refine ⟨rfl, rfl, by rw [h], by rw [h], by rw [h]; rfl⟩

/-- Claim C9 (amended): `set_target_temperature_comfort target` is a
warning-only no-op when the setpoint value is unknown or exactly zero (the
source uses a Python truthiness test), a warning-only no-op when the
setpoint-shift channel is uninitialized, and otherwise writes the toward-zero
truncation of `(target - setpoint) / 0.1` to the setpoint-shift channel. -/
theorem C9_set_target_temperature_comfort_behaviour (c : Climate) (target : ℚ) :
    ((c.setpoint.value = none ∨ c.setpoint.value = some 0) →
       c.set_target_temperature_comfort target
         = (c, [Event.warning "Setpoint temperature not know. Cant set target temperature"])) ∧
    (∀ v : ℚ, c.setpoint.value = some v → v ≠ 0 → c.setpoint_shift.initialized = false →
       c.set_target_temperature_comfort target
         = (c, [Event.warning "Setpoint shift not know. Cant set target temperature"])) ∧
    (∀ (v : ℚ) (a : Addr), c.setpoint.value = some v → v ≠ 0 →
       c.setpoint_shift.initialized = true → c.setpoint_shift.group_address = some a →
       c.set_target_temperature_comfort target
         = ({ c with setpoint_shift :=
               { c.setpoint_shift with
                   value := some (truncTowardZero ((target - v) / (1 / 10))) } },
            [Event.telegramSent a
              (RemoteValue1Count.to_knx (truncTowardZero ((target - v) / (1 / 10))))])) := by
  refine ⟨?_, ?_, ?_⟩
  · intro h
    rcases h with h | h <;> simp [Climate.set_target_temperature_comfort, h]
  · intro v hv hnz hinit
    simp [Climate.set_target_temperature_comfort, hv, hnz, hinit]
  · intro v a hv hnz hinit ha
    simp [Climate.set_target_temperature_comfort, hv, hnz, hinit, RemoteValue.set, ha]

/-- Witness for `C9_set_target_temperature_comfort_behaviour` on a device
with known setpoint 20: the offset telegram for target 21 is sent. -/
theorem C9_witness :
    knownSetpointClimate.setpoint.value = some 20 ∧
    knownSetpointClimate.setpoint_shift.initialized = true ∧
    (knownSetpointClimate.set_target_temperature_comfort 21).2
      = [Event.telegramSent 4 (Payload.array [10])] := by
  refine ⟨rfl, rfl, ?_⟩
  have h := (C9_set_target_temperature_comfort_behaviour knownSetpointClimate 21).2.2
    20 4 rfl (by norm_num) rfl rfl
  rw [h]
  norm_num [RemoteValue1Count.to_knx, truncTowardZero]
  decide

/-- Claim C10: the source tests the setpoint with a truthiness check rather
than an is-None check, so a known setpoint value of exactly 0 takes the
setpoint-unknown warning path: the state is unchanged and no telegram is
sent. -/
theorem C10_zero_setpoint_truthiness (c : Climate) (target : ℚ)
    (h : c.setpoint.value = some 0) :
    c.set_target_temperature_comfort target
      = (c, [Event.warning "Setpoint temperature not know. Cant set target temperature"]) ∧
    sentEvents (c.set_target_temperature_comfort target).2 = [] := by
  have h1 : c.set_target_temperature_comfort target
      = (c, [Event.warning "Setpoint temperature not know. Cant set target temperature"]) := by
    simp [Climate.set_target_temperature_comfort, h]
  exact ⟨h1, by rw [h1]; rfl⟩

/-- Witness for `C10_zero_setpoint_truthiness` at setpoint value 0. -/
theorem C10_witness :
    zeroSetpointClimate.setpoint.value = some 0 ∧
    zeroSetpointClimate.set_target_temperature_comfort 21
      = (zeroSetpointClimate,
         [Event.warning "Setpoint temperature not know. Cant set target temperature"]) :=
  ⟨rfl, (C10_zero_setpoint_truthiness zeroSetpointClimate 21 rfl).1⟩

end XknxClimate
